import Mathlib

/-!
Shallow embedding of the haptic translation service (src/main.py) and
verification of its specification claims.

Modelling conventions:
* Python floats are modelled as rationals (`ℚ`); all numeric literals of the
  source (`0.1`, `3.0`, `0.8`, timing constants) are exact in this range, so
  no rounding discrepancies arise for the quantities the claims mention.
* Python `int(x)` (truncation toward zero) on a nonnegative quotient is
  modelled by `pyInt`.
* Python `str.upper()` is modelled as ASCII uppercasing (`Char.toUpper`
  mapped over the string); all characters of the symbol table are ASCII or
  case-less punctuation, which uppercasing leaves unchanged.
* The module-level dict `haptic_pattern_cache` is modelled as an explicit
  association list threaded through the orchestrator
  (`translate_text_to_haptic`); dict get/put/in-place field update are
  modelled by `cacheGet` / `cachePut` / `cacheMarkCached`.
* `hashlib.md5(...).hexdigest()` in `_generate_cache_key` is modelled as the
  identity on the serialized parameter string: md5 is one fixed deterministic
  pure function, and every claim about cache keys here concerns only key
  *equality*, which is preserved under composition with any function.
-/

namespace Haptic

/-- One instruction of the output sequence: the dicts
`\x7b'type': 'vibrate', 'duration': d, 'intensity': i\x7d` and
`\x7b'type': 'pause', 'duration': d\x7d` of the source. -/
inductive Instr where
  | vibrate (duration : ℤ) (intensity : ℚ)
  | pause (duration : ℤ)
deriving DecidableEq, Repr

/-- The `duration` field of an instruction. -/
def Instr.duration : Instr → ℤ
  | .vibrate d _ => d
  | .pause d => d

/-- Sum of the `duration` fields of a pattern. -/
def sumDur (p : List Instr) : ℤ := (p.map Instr.duration).sum

/-- Python `int(q)` for the nonnegative quotients of the source:
truncation toward zero, i.e. T-division of numerator by denominator. -/
def pyInt (q : ℚ) : ℤ := q.num.tdiv q.den

/-- `HAPTIC_PATTERNS`: the character-to-code dict of the source, byte-faithful.
Note three codes ('B', 'S', '5') contain the en dash U+2013 ('–'), a distinct
character from the ASCII hyphen-minus '-' used by `TIMING`. -/
def HAPTIC_PATTERNS : List (Char × String) :=
  [('A', "•-"), ('B', "•–•–"), ('C', "••-•"), ('D', "•••"),
   ('E', "•"), ('F', "•••-"), ('G', "--•"),
   ('H', "••••"), ('I', "••"), ('J', "•---"),
   ('K', "-•-"), ('L', "•-••"), ('M', "--"),
   ('N', "-•"), ('O', "---"), ('P', "•--•"),
   ('Q', "--•-"), ('R', "•-•"), ('S', "•–•"),
   ('T', "-"), ('U', "••-"), ('V', "•••-"),
   ('W', "•--"), ('X', "-••-"), ('Y', "-•--"),
   ('Z', "--••"), (' ', " "),
   ('#', "-"),
   ('0', "•-•"),
   ('1', "•"),
   ('2', "••"),
   ('3', "•••"),
   ('4', "••••"),
   ('5', "•••–"),
   ('6', "-•"),
   ('7', "-••"),
   ('8', "-•••"),
   ('9', "-••••")]

/-- `TIMING` lookup for the two pulse symbols (only ever consulted by the
source for a symbol that passed the `symbol in ['•', '-']` test). -/
def TIMING (c : Char) : ℚ := if c = '•' then 100 else 300

/-- `TIMING['letter_space']`. -/
def letter_space : ℚ := 200

/-- `TIMING['word_space']`. -/
def word_space : ℚ := 600

/-- `TIMING['sentence_space']`. -/
def sentence_space : ℚ := 900

/-- Python `text.upper()` restricted to ASCII case mapping. -/
def upperStr (s : String) : String := ⟨s.data.map Char.toUpper⟩

/-- The inner `for symbol in char_pattern` loop of `_generate_haptic_pattern`:
emit a vibration for each pulse symbol ('•' or '-'), and a fixed 50 ms pause
after every symbol whose *value* differs from the value of the code's last
character (`symbol != char_pattern[-1]` in the source compares characters,
not positions). Returns (instructions, duration added). -/
def emitCode (syms : List Char) (lastSym : Char) (speed intensity : ℚ) :
    List Instr × ℤ :=
  match syms with
  | [] => ([], 0)
  | s :: rest =>
    let tail := emitCode rest lastSym speed intensity
    let vib : List Instr × ℤ :=
      if s = '•' ∨ s = '-' then
        let d := pyInt (TIMING s / speed)
        ([Instr.vibrate d intensity], d)
      else ([], 0)
    let gap : List Instr × ℤ :=
      if s ≠ lastSym then ([Instr.pause 50], 50) else ([], 0)
    (vib.1 ++ gap.1 ++ tail.1, vib.2 + gap.2 + tail.2)

/-- The main character loop of `_generate_haptic_pattern`, over the
uppercased character list. Sentence punctuation and spaces emit scaled
pauses; a supported character emits its code followed by a scaled
letter-space pause when the next character exists and is not a space;
unsupported characters emit nothing. -/
def genLoop (chars : List Char) (speed intensity : ℚ) : List Instr × ℤ :=
  match chars with
  | [] => ([], 0)
  | c :: rest =>
    let tail := genLoop rest speed intensity
    if c = '.' ∨ c = '!' ∨ c = '?' then
      let d := pyInt (sentence_space / speed)
      (Instr.pause d :: tail.1, d + tail.2)
    else if c = ' ' then
      let d := pyInt (word_space / speed)
      (Instr.pause d :: tail.1, d + tail.2)
    else
      match List.lookup c HAPTIC_PATTERNS with
      | some code =>
        let syms := code.data
        let body := emitCode syms (syms.getLastD ' ') speed intensity
        let ls : List Instr × ℤ :=
          match rest with
          | [] => ([], 0)
          | r :: _ =>
            if r = ' ' then ([], 0)
            else
              let d := pyInt (letter_space / speed)
              ([Instr.pause d], d)
        (body.1 ++ ls.1 ++ tail.1, body.2 + ls.2 + tail.2)
      | none => tail

/-- `_generate_haptic_pattern`: uppercase the text, run the character loop,
then unconditionally append the end-of-message pause. Returns
(pattern, total_duration). -/
def generate_haptic_pattern (text : String) (speed intensity : ℚ) :
    List Instr × ℤ :=
  let body := genLoop (upperStr text).data speed intensity
  let endPause := pyInt (sentence_space / speed)
  (body.1 ++ [Instr.pause endPause], body.2 + endPause)

/-- The `json.dumps(sorted_items)` serialization of `_generate_cache_key`:
the dict keys sort as intensity < speed < text, so the serialized form lists
the three normalized parameters in that fixed order. Rational rendering
stands in for Python float rendering; only equality of keys is ever used. -/
def param_str (speed intensity : ℚ) (text : String) : String :=
  "[[\"intensity\", " ++ toString intensity ++ "], [\"speed\", " ++
    toString speed ++ "], [\"text\", \"" ++ text ++ "\"]]"

/-- `_generate_cache_key`: normalize the text to uppercase, serialize the
sorted parameter triple, hash, and prefix with the namespace tag. The md5
hexdigest is modelled as the identity on the serialized string (md5 is a
fixed deterministic function; the claims concern only key equality). -/
def generate_cache_key (text : String) (speed_factor intensity : ℚ) : String :=
  "haptic_pattern:" ++ param_str speed_factor intensity (upperStr text)

/-- `TranslationResult`: the `response_data` dict assembled by
`translate_text_to_haptic`. -/
structure TranslationResult where
  pattern : List Instr
  totalDuration : ℤ
  characterCount : ℕ
  text : String
  cached : Bool
deriving DecidableEq, Repr

/-- The module-level `haptic_pattern_cache` dict, as an association list
with distinct keys (insertion order first). -/
def Cache := List (String × TranslationResult)

/-- `haptic_pattern_cache.get(key)`. -/
def cacheGet (c : Cache) (k : String) : Option TranslationResult :=
  List.lookup k (c : List (String × TranslationResult))

/-- `haptic_pattern_cache[key] = value`: overwrite in place if the key is
present, else append. -/
def cachePut (c : Cache) (k : String) (v : TranslationResult) : Cache :=
  match c with
  | [] => [(k, v)]
  | (k', v') :: rest =>
    if k' = k then (k, v) :: rest
    else (k', v') :: cachePut rest k v

/-- `cached_result['cached'] = True` on the dict stored in the cache:
in-place mutation of the hit entry's flag. -/
def cacheMarkCached (c : Cache) (k : String) : Cache :=
  match c with
  | [] => []
  | (k', v') :: rest =>
    if k' = k then (k', { v' with cached := true }) :: rest
    else (k', v') :: cacheMarkCached rest k

/-- The speed-factor validation of `translate_text_to_haptic`: out of
[0.1, 3.0] is replaced with the default 1.0. -/
def clampSpeed (s : ℚ) : ℚ := if 0.1 ≤ s ∧ s ≤ 3.0 then s else 1.0

/-- The intensity validation of `translate_text_to_haptic`: out of
[0.0, 1.0] is replaced with the default 0.8. -/
def clampIntensity (i : ℚ) : ℚ := if 0.0 ≤ i ∧ i ≤ 1.0 then i else 0.8

/-- The cache key the orchestrator derives: `_generate_cache_key` applied to
the validated preference values. -/
def derivedKey (text : String) (s i : ℚ) : String :=
  generate_cache_key text (clampSpeed s) (clampIntensity i)

/-- `translate_text_to_haptic`: validate preferences, consult the cache when
enabled (a hit sets the stored entry's `cached` flag to true in place and
returns that entry), otherwise generate, assemble the response with
`cached = false`, and store a copy when caching is enabled. Returns
(result, cache after the call). -/
def translate_text_to_haptic (st : Cache) (text : String)
    (speed_factor intensity : ℚ) (use_cache : Bool) :
    TranslationResult × Cache :=
  let s := clampSpeed speed_factor
  let i := clampIntensity intensity
  if use_cache then
    let key := generate_cache_key text s i
    match cacheGet st key with
    | some cached_result =>
      ({ cached_result with cached := true }, cacheMarkCached st key)
    | none =>
      let g := generate_haptic_pattern text s i
      let response : TranslationResult :=
        { pattern := g.1, totalDuration := g.2,
          characterCount := text.length, text := text, cached := false }
      (response, cachePut st key response)
  else
    let g := generate_haptic_pattern text s i
    ({ pattern := g.1, totalDuration := g.2,
       characterCount := text.length, text := text, cached := false }, st)

/-- The `response_data` record assembled by `translate_text_to_haptic` for
given raw inputs (with the validation applied), named for use in theorem
statements. -/
def respOf (t : String) (s i : ℚ) : TranslationResult where
  pattern := (generate_haptic_pattern t (clampSpeed s) (clampIntensity i)).1
  totalDuration := (generate_haptic_pattern t (clampSpeed s) (clampIntensity i)).2
  characterCount := t.length
  text := t
  cached := false

/-- Whether an instruction is a vibration. -/
def isVibrate : Instr → Bool
  | .vibrate _ _ => true
  | .pause _ => false

/-! ### Helper lemmas -/

theorem sumDur_nil : sumDur [] = 0 := rfl

theorem sumDur_cons (x : Instr) (l : List Instr) :
    sumDur (x :: l) = x.duration + sumDur l := by
  simp [sumDur]

theorem sumDur_append (a b : List Instr) :
    sumDur (a ++ b) = sumDur a + sumDur b := by
  simp [sumDur]

theorem pyInt_div_one (q : ℚ) : pyInt (q / 1) = pyInt q := by rw [div_one]

theorem pyInt_100 : pyInt 100 = 100 := by decide

theorem pyInt_200 : pyInt 200 = 200 := by decide

theorem pyInt_300 : pyInt 300 = 300 := by decide

theorem pyInt_600 : pyInt 600 = 600 := by decide

theorem pyInt_900 : pyInt 900 = 900 := by decide

theorem TIMING_dot : TIMING '•' = 100 := rfl

theorem TIMING_dash : TIMING '-' = 300 := by simp [TIMING]

theorem emitCode_total (syms : List Char) (lastSym : Char) (s i : ℚ) :
    (emitCode syms lastSym s i).2 = sumDur (emitCode syms lastSym s i).1 := by
  induction syms with
  | nil => simp [emitCode, sumDur]
  | cons c rest ih =>
    simp only [emitCode]
    repeat' split
    all_goals
      simp [sumDur_append, sumDur_cons, sumDur_nil, Instr.duration, ih]
    all_goals omega

theorem genLoop_total (chars : List Char) (s i : ℚ) :
    (genLoop chars s i).2 = sumDur (genLoop chars s i).1 := by
  induction chars with
  | nil => simp [genLoop, sumDur]
  | cons c rest ih =>
    simp only [genLoop]
    repeat' split
    all_goals
      simp [sumDur_append, sumDur_cons, sumDur_nil, Instr.duration,
        emitCode_total, ih]
    all_goals omega

/-- Claim C1: for every input text, speed factor and intensity, the total
duration returned by the pattern generator equals the exact sum of the
`duration` fields of all instructions in the returned pattern. -/
theorem total_duration_eq_sum (text : String) (speed intensity : ℚ) :
    (generate_haptic_pattern text speed intensity).2 =
      sumDur (generate_haptic_pattern text speed intensity).1 := by
  simp [generate_haptic_pattern, sumDur_append, sumDur_cons, sumDur_nil,
    Instr.duration, genLoop_total]

theorem clampSpeed_in (s : ℚ) (h : (0.1:ℚ) ≤ s ∧ s ≤ 3.0) :
    clampSpeed s = s := if_pos h

theorem clampSpeed_out (s : ℚ) (h : ¬((0.1:ℚ) ≤ s ∧ s ≤ 3.0)) :
    clampSpeed s = 1 := by
  unfold clampSpeed
  rw [if_neg h]
  norm_num

theorem clampSpeed_one : clampSpeed 1 = 1 := clampSpeed_in 1 (by norm_num)

theorem clampSpeed_five : clampSpeed 5 = 1 := clampSpeed_out 5 (by norm_num)

theorem clampIntensity_in (i : ℚ) (h : (0.0:ℚ) ≤ i ∧ i ≤ 1.0) :
    clampIntensity i = i := if_pos h

theorem clampIntensity_out (i : ℚ) (h : ¬((0.0:ℚ) ≤ i ∧ i ≤ 1.0)) :
    clampIntensity i = 0.8 := if_neg h

theorem clampIntensity_default : clampIntensity 0.8 = 0.8 :=
  clampIntensity_in 0.8 (by norm_num)

theorem generate_cache_key_congr (t1 t2 : String) (s1 s2 i1 i2 : ℚ)
    (ht : upperStr t1 = upperStr t2) (hs : s1 = s2) (hi : i1 = i2) :
    generate_cache_key t1 s1 i1 = generate_cache_key t2 s2 i2 := by
  subst hs
  subst hi
  unfold generate_cache_key
  rw [ht]

theorem derivedKey_five (t : String) (i : ℚ) :
    derivedKey t 5 i = derivedKey t 1 i := by
  simp [derivedKey, clampSpeed_five, clampSpeed_one]

theorem cacheGet_nil (k : String) : cacheGet [] k = none := rfl

theorem cacheGet_cachePut_self (st : Cache) (k : String)
    (v : TranslationResult) : cacheGet (cachePut st k v) k = some v := by
  induction st with
  | nil => simp [cachePut, cacheGet, List.lookup]
  | cons e rest ih =>
    obtain ⟨k', v'⟩ := e
    by_cases h : k' = k
    · simp [cachePut, h, cacheGet, List.lookup]
    · have hbf : (k == k') = false := beq_eq_false_iff_ne.mpr (Ne.symm h)
      simp only [cachePut, if_neg h]
      simpa [cacheGet, List.lookup, hbf] using ih

theorem cacheGet_cacheMarkCached_self (st : Cache) (k : String)
    (r : TranslationResult) :
    cacheGet st k = some r →
      cacheGet (cacheMarkCached st k) k = some { r with cached := true } := by
  induction st with
  | nil =>
    intro h
    simp [cacheGet, List.lookup] at h
  | cons e rest ih =>
    obtain ⟨k', v'⟩ := e
    intro h
    by_cases hk : k' = k
    · have hbt : (k == k') = true := by
        rw [hk]
        exact beq_self_eq_true k
      simp only [cacheGet, List.lookup, hbt] at h
      obtain rfl : v' = r := by injection h
      simp [cacheMarkCached, cacheGet, List.lookup, hbt, if_pos hk]
    · have hbf : (k == k') = false := beq_eq_false_iff_ne.mpr (Ne.symm hk)
      simp only [cacheGet, List.lookup, hbf] at h
      simp only [cacheMarkCached, if_neg hk]
      simpa [cacheGet, List.lookup, hbf] using ih h

theorem translate_nocache (st : Cache) (t : String) (s i : ℚ) :
    translate_text_to_haptic st t s i false = (respOf t s i, st) := by
  simp [translate_text_to_haptic, respOf]

theorem translate_miss (st : Cache) (t : String) (s i : ℚ)
    (h : cacheGet st (derivedKey t s i) = none) :
    translate_text_to_haptic st t s i true =
      (respOf t s i, cachePut st (derivedKey t s i) (respOf t s i)) := by
  simp only [derivedKey] at h
  simp [translate_text_to_haptic, h, respOf, derivedKey]

theorem translate_hit (st : Cache) (t : String) (s i : ℚ)
    (r : TranslationResult) (h : cacheGet st (derivedKey t s i) = some r) :
    translate_text_to_haptic st t s i true =
      ({ r with cached := true }, cacheMarkCached st (derivedKey t s i)) := by
  simp only [derivedKey] at h
  simp [translate_text_to_haptic, h, derivedKey]

theorem translate_clamp_congr (st : Cache) (t : String) (u : Bool)
    (s1 s2 i1 i2 : ℚ) (hs : clampSpeed s1 = clampSpeed s2)
    (hi : clampIntensity i1 = clampIntensity i2) :
    translate_text_to_haptic st t s1 i1 u =
      translate_text_to_haptic st t s2 i2 u := by
  simp only [translate_text_to_haptic, hs, hi]

/-- Claim C6: the orchestrator never rejects out-of-range preferences: a
speed factor outside [0.1, 3.0] is replaced with 1.0 and an intensity
outside [0.0, 1.0] with 0.8 before any further processing; in particular a
call with speed factor 5.0 behaves identically to one with 1.0. -/
theorem orchestrator_clamps_preferences (st : Cache) (t : String)
    (s i : ℚ) (u : Bool) :
    (¬((0.1:ℚ) ≤ s ∧ s ≤ 3.0) →
      translate_text_to_haptic st t s i u =
        translate_text_to_haptic st t 1 i u) ∧
    (¬((0.0:ℚ) ≤ i ∧ i ≤ 1.0) →
      translate_text_to_haptic st t s i u =
        translate_text_to_haptic st t s 0.8 u) ∧
    translate_text_to_haptic st t 5 i u =
      translate_text_to_haptic st t 1 i u := by
  refine ⟨fun h => ?_, fun h => ?_, ?_⟩
  · exact translate_clamp_congr st t u s 1 i i
      (by rw [clampSpeed_out s h, clampSpeed_one]) rfl
  · exact translate_clamp_congr st t u s s i 0.8 rfl
      (by rw [clampIntensity_out i h, clampIntensity_default])
  · exact translate_clamp_congr st t u 5 1 i i
      (by rw [clampSpeed_five, clampSpeed_one]) rfl

/-- Witness for C6 at concrete out-of-range preferences: speed 5.0 and
intensity 2.0 are both replaced by their defaults. -/
theorem orchestrator_clamps_preferences_witness :
    translate_text_to_haptic [] "A" 5 2 false =
      translate_text_to_haptic [] "A" 1 2 false ∧
    translate_text_to_haptic [] "A" 5 2 false =
      translate_text_to_haptic [] "A" 5 0.8 false :=
  ⟨(orchestrator_clamps_preferences [] "A" 5 2 false).1 (by norm_num),
   (orchestrator_clamps_preferences [] "A" 5 2 false).2.1 (by norm_num)⟩

/-- Claim C8: the cache key is a pure deterministic function of the
uppercased text, the speed and the intensity: any two calls whose texts
have the same uppercase form and whose speed and intensity agree derive
the same cache key. -/
theorem cache_key_deterministic (t1 t2 : String) (s1 s2 i1 i2 : ℚ)
    (ht : upperStr t1 = upperStr t2) (hs : s1 = s2) (hi : i1 = i2) :
    generate_cache_key t1 s1 i1 = generate_cache_key t2 s2 i2 :=
  generate_cache_key_congr t1 t2 s1 s2 i1 i2 ht hs hi

/-- Witness for C8: "hello" and "HELLO" with equal preferences derive the
same cache key. -/
theorem cache_key_deterministic_witness :
    generate_cache_key "hello" 1 0.8 = generate_cache_key "HELLO" 1 0.8 :=
  cache_key_deterministic "hello" "HELLO" 1 1 0.8 0.8 rfl rfl rfl

/-- Claim C10: preference clamping happens before cache-key derivation: a
call with out-of-range speed 5.0 derives the same key as one with the
default 1.0, and after a call with speed 5.0 the same request at speed 1.0
is a cache hit. -/
theorem clamp_before_key_derivation (st : Cache) (t : String) (i : ℚ) :
    derivedKey t 5 i = derivedKey t 1 i ∧
    (translate_text_to_haptic
        (translate_text_to_haptic st t 5 i true).2 t 1 i true).1.cached
      = true := by
  have hk : derivedKey t 5 i = derivedKey t 1 i := derivedKey_five t i
  refine ⟨hk, ?_⟩
  cases h : cacheGet st (derivedKey t 5 i) with
  | none =>
    rw [translate_miss st t 5 i h]
    have h2 : cacheGet (cachePut st (derivedKey t 5 i) (respOf t 5 i))
        (derivedKey t 1 i) = some (respOf t 5 i) := by
      rw [← hk]
      exact cacheGet_cachePut_self st (derivedKey t 5 i) (respOf t 5 i)
    rw [translate_hit _ t 1 i _ h2]
  | some r =>
    rw [translate_hit st t 5 i r h]
    have h2 : cacheGet (cacheMarkCached st (derivedKey t 5 i))
        (derivedKey t 1 i) = some { r with cached := true } := by
      rw [← hk]
      exact cacheGet_cacheMarkCached_self st (derivedKey t 5 i) r h
    rw [translate_hit _ t 1 i _ h2]

theorem gen_SOS_eval (i : ℚ) : generate_haptic_pattern "SOS" 1 i =
    ([Instr.vibrate 100 i, Instr.pause 50, Instr.vibrate 100 i,
      Instr.pause 200,
      Instr.vibrate 300 i, Instr.vibrate 300 i, Instr.vibrate 300 i,
      Instr.pause 200,
      Instr.vibrate 100 i, Instr.pause 50, Instr.vibrate 100 i,
      Instr.pause 900], 2700) := by
  have hS : List.lookup 'S' HAPTIC_PATTERNS = some "•–•" := rfl
  have hO : List.lookup 'O' HAPTIC_PATTERNS = some "---" := rfl
  have hSd : ("•–•" : String).data = ['•', '–', '•'] := rfl
  have hOd : ("---" : String).data = ['-', '-', '-'] := rfl
  unfold generate_haptic_pattern
  rw [show upperStr "SOS" = "SOS" from rfl,
      show ("SOS" : String).data = ['S', 'O', 'S'] from rfl]
  simp [genLoop, emitCode, hS, hO, hSd, hOd,
    letter_space, sentence_space, word_space,
    pyInt_div_one, pyInt_100, pyInt_300, pyInt_200, pyInt_600, pyInt_900,
    TIMING_dot, TIMING_dash]

theorem gen_O_eval : generate_haptic_pattern "O" 1 0.8 =
    ([Instr.vibrate 300 0.8, Instr.vibrate 300 0.8, Instr.vibrate 300 0.8,
      Instr.pause 900], 1800) := by
  have hO : List.lookup 'O' HAPTIC_PATTERNS = some "---" := rfl
  have hOd : ("---" : String).data = ['-', '-', '-'] := rfl
  unfold generate_haptic_pattern
  rw [show upperStr "O" = "O" from rfl,
      show ("O" : String).data = ['O'] from rfl]
  simp [genLoop, emitCode, hO, hOd, sentence_space,
    pyInt_div_one, pyInt_300, pyInt_900, TIMING_dash]

theorem gen_dot_eval : generate_haptic_pattern "." 1 0.8 =
    ([Instr.pause 900, Instr.pause 900], 1800) := by
  unfold generate_haptic_pattern
  rw [show upperStr "." = "." from rfl,
      show ("." : String).data = ['.'] from rfl]
  simp [genLoop, sentence_space, pyInt_div_one, pyInt_900]

/-- Claim C2 (code bug): the source's inline comments say a 50 ms pause is
added after every symbol that is "not the last symbol" of a character's
code, but the check `symbol != char_pattern[-1]` compares symbol values,
not positions; for 'O' (code `---`, three pulse symbols) no 50 ms pause at
all is emitted, where the claim requires one after each of the first two
pulses. -/
theorem no_gap_inside_O :
    generate_haptic_pattern "O" 1 0.8 =
      ([Instr.vibrate 300 0.8, Instr.vibrate 300 0.8, Instr.vibrate 300 0.8,
        Instr.pause 900], 1800) ∧
    (generate_haptic_pattern "O" 1 0.8).1.countP
        (fun p => p == Instr.pause 50) = 0 := by
  refine ⟨gen_O_eval, ?_⟩
  rw [gen_O_eval]
  decide

/-- Claim C3 counterexample: for "SOS" at default speed and intensity the
generated pattern has only 7 vibrations (each 'S' emits two 100 ms
vibrations, not three: the middle character of its code is an en dash,
which emits no vibration, only a 50 ms gap; 'O' has no intra-letter
pauses), where the claim requires three short pulses per 'S' and three
long pulses for 'O', i.e. 9 vibrations. -/
theorem sos_counterexample :
    generate_haptic_pattern "SOS" 1 0.8 =
      ([Instr.vibrate 100 0.8, Instr.pause 50, Instr.vibrate 100 0.8,
        Instr.pause 200,
        Instr.vibrate 300 0.8, Instr.vibrate 300 0.8, Instr.vibrate 300 0.8,
        Instr.pause 200,
        Instr.vibrate 100 0.8, Instr.pause 50, Instr.vibrate 100 0.8,
        Instr.pause 900], 2700) ∧
    (generate_haptic_pattern "SOS" 1 0.8).1.countP isVibrate = 7 ∧
    ¬(generate_haptic_pattern "SOS" 1 0.8).1.countP isVibrate = 9 := by
  refine ⟨gen_SOS_eval 0.8, ?_, ?_⟩ <;> rw [gen_SOS_eval 0.8] <;> decide

/-- Claim C3 (amended): for "SOS" with defaults, each 'S' contributes
vibrate 100 ms, pause 50 ms, vibrate 100 ms; 'O' contributes three
consecutive 300 ms vibrations with no intra-letter pauses; 200 ms
inter-letter pauses separate S-O and O-S; the pattern ends with a 900 ms
pause; total duration 2700 ms and character count 3. -/
theorem sos_scenario_actual :
    (translate_text_to_haptic [] "SOS" 1 0.8 true).1 =
      { pattern :=
          [Instr.vibrate 100 0.8, Instr.pause 50, Instr.vibrate 100 0.8,
           Instr.pause 200,
           Instr.vibrate 300 0.8, Instr.vibrate 300 0.8,
           Instr.vibrate 300 0.8,
           Instr.pause 200,
           Instr.vibrate 100 0.8, Instr.pause 50, Instr.vibrate 100 0.8,
           Instr.pause 900],
        totalDuration := 2700, characterCount := 3, text := "SOS",
        cached := false } := by
  rw [translate_miss [] "SOS" 1 0.8 rfl]
  show respOf "SOS" 1 0.8 = _
  unfold respOf
  rw [clampSpeed_one, clampIntensity_default, gen_SOS_eval 0.8]
  rfl

/-- Claim C5 counterexample: digit '9' maps to a code of 5 symbols, not
exactly 2; and the code of 'B' contains the en dash U+2013, which is
neither the short pulse symbol nor the long pulse symbol. -/
theorem symbol_table_counterexample :
    List.lookup '9' HAPTIC_PATTERNS = some "-••••" ∧
    ("-••••" : String).length = 5 ∧
    List.lookup 'B' HAPTIC_PATTERNS = some "•–•–" ∧
    '–' ∈ ("•–•–" : String).data ∧ '–' ≠ '•' ∧ '–' ≠ '-' := by decide

/-- Claim C5 (amended): every letter A-Z and digit 0-9 is present in the
table; letter codes have 1-4 symbols, digit codes 1-5 symbols; every code
symbol of every character other than the space is the short pulse '•',
the long pulse '-', or the en dash '–', and the en dash occurs only in
the codes of 'B', 'S' and '5'. -/
theorem symbol_table_shape :
    (∀ c ∈ ("ABCDEFGHIJKLMNOPQRSTUVWXYZ0123456789" : String).data,
        (List.lookup c HAPTIC_PATTERNS).isSome = true) ∧
    (∀ e ∈ HAPTIC_PATTERNS,
        ('A' ≤ e.1 ∧ e.1 ≤ 'Z' → 1 ≤ e.2.length ∧ e.2.length ≤ 4) ∧
        ('0' ≤ e.1 ∧ e.1 ≤ '9' → 1 ≤ e.2.length ∧ e.2.length ≤ 5) ∧
        (e.1 ≠ ' ' → ∀ sym ∈ e.2.data, sym = '•' ∨ sym = '-' ∨ sym = '–') ∧
        ('–' ∈ e.2.data → e.1 = 'B' ∨ e.1 = 'S' ∨ e.1 = '5')) := by decide

/-- Witness for C5 (amended) at 'Z': it is present in the table and its
code "--••" has between 1 and 4 symbols. -/
theorem symbol_table_shape_witness :
    (List.lookup 'Z' HAPTIC_PATTERNS).isSome = true ∧
    (1 ≤ ("--••" : String).length ∧ ("--••" : String).length ≤ 4) :=
  ⟨symbol_table_shape.1 'Z' (by decide),
   (symbol_table_shape.2 ('Z', "--••") (by decide)).1 (by decide)⟩

theorem genLoop_unsupported (chars : List Char) (s i : ℚ)
    (h : ∀ c ∈ chars, List.lookup c HAPTIC_PATTERNS = none ∧
        c ≠ '.' ∧ c ≠ '!' ∧ c ≠ '?') :
    genLoop chars s i = ([], 0) := by
  induction chars with
  | nil => simp [genLoop]
  | cons c rest ih =>
    obtain ⟨hl, hd, he, hq⟩ := h c (by simp)
    have hsp : c ≠ ' ' := by
      intro hc
      rw [hc] at hl
      exact absurd hl (by decide)
    simp [genLoop, hd, he, hq, hsp, hl,
      ih (fun c' hc' => h c' (List.mem_cons_of_mem _ hc'))]

/-- Claim C7 (amended): for every text whose uppercased characters are all
outside the Symbol Table and are not the sentence punctuation '.', '!' or
'?' (note the space IS in the table), the pattern is exactly one final
Pause of `int(900 / speed)` ms with no vibrations; and for every text
whatsoever the final sentence-space Pause is appended unconditionally as
the last instruction. -/
theorem unsupported_only_final_pause (text other : String) (s i : ℚ)
    (h : ∀ c ∈ (upperStr text).data,
        List.lookup c HAPTIC_PATTERNS = none ∧
        c ≠ '.' ∧ c ≠ '!' ∧ c ≠ '?') :
    ((generate_haptic_pattern text s i).1 =
        [Instr.pause (pyInt (sentence_space / s))] ∧
      ∀ p ∈ (generate_haptic_pattern text s i).1, isVibrate p = false) ∧
    (generate_haptic_pattern other s i).1.getLast? =
      some (Instr.pause (pyInt (sentence_space / s))) := by
  have h0 := genLoop_unsupported (upperStr text).data s i h
  refine ⟨⟨?_, ?_⟩, ?_⟩
  · simp [generate_haptic_pattern, h0]
  · intro p hp
    simp [generate_haptic_pattern, h0] at hp
    simp [hp, isVibrate]
  · show ((genLoop (upperStr other).data s i).1 ++
        [Instr.pause (pyInt (sentence_space / s))]).getLast? = _
    exact List.getLast?_concat _

/-- Claim C7 counterexample: "." consists only of characters outside the
Symbol Table, yet its pattern is two pauses (the sentence-punctuation
pause plus the final pause), not exactly one final Pause. -/
theorem unsupported_only_counterexample :
    List.lookup '.' HAPTIC_PATTERNS = none ∧
    (generate_haptic_pattern "." 1 0.8).1 =
      [Instr.pause 900, Instr.pause 900] ∧
    (generate_haptic_pattern "." 1 0.8).1 ≠
      [Instr.pause (pyInt (sentence_space / 1))] := by
  refine ⟨by decide, ?_, ?_⟩
  · rw [gen_dot_eval]
  · rw [gen_dot_eval]
    rw [show pyInt (sentence_space / 1) = 900 by
      rw [pyInt_div_one]
      simpa [sentence_space] using pyInt_900]
    decide

/-- Witness for C7 (amended) at the unsupported character "@" with speed
1 and intensity 0.8. -/
theorem unsupported_only_final_pause_witness :
    (generate_haptic_pattern "@" 1 0.8).1 =
      [Instr.pause (pyInt (sentence_space / 1))] :=
  ((unsupported_only_final_pause "@" "@" 1 0.8 (by decide)).1).1

/-- Claim C4 counterexample: after a miss on "A" and then a hit on "A",
the single stored cache entry has its cached flag equal to true — the hit
mutated the stored result in place, so stored entries do not keep
cached = false at all times. -/
theorem stored_flag_counterexample :
    ((translate_text_to_haptic
        (translate_text_to_haptic [] "A" 1 0.8 true).2
        "A" 1 0.8 true).2).map (fun e => e.2.cached) = [true] := by
  rw [translate_miss [] "A" 1 0.8 rfl]
  have h1 : cacheGet (cachePut ([] : Cache) (derivedKey "A" 1 0.8)
      (respOf "A" 1 0.8)) (derivedKey "A" 1 0.8)
      = some (respOf "A" 1 0.8) :=
    cacheGet_cachePut_self [] _ _
  rw [translate_hit _ "A" 1 0.8 _ h1]
  show (cacheMarkCached [(derivedKey "A" 1 0.8, respOf "A" 1 0.8)]
      (derivedKey "A" 1 0.8)).map (fun e => e.2.cached) = [true]
  simp [cacheMarkCached]

/-- Claim C4 (amended): on a miss the orchestrator stores the result with
cached = false; but a hit returns the stored entry itself with its flag
set to true in place, so after the first hit the stored entry's flag is
true (the source mutates the cached dict rather than copying it). -/
theorem cache_store_semantics (st : Cache) (t : String) (s i : ℚ) :
    (cacheGet st (derivedKey t s i) = none →
      cacheGet (translate_text_to_haptic st t s i true).2 (derivedKey t s i)
          = some (respOf t s i) ∧ (respOf t s i).cached = false) ∧
    (∀ r, cacheGet st (derivedKey t s i) = some r →
      (translate_text_to_haptic st t s i true).1 = { r with cached := true } ∧
      cacheGet (translate_text_to_haptic st t s i true).2 (derivedKey t s i)
          = some { r with cached := true }) := by
  constructor
  · intro h
    rw [translate_miss st t s i h]
    exact ⟨cacheGet_cachePut_self st _ _, rfl⟩
  · intro r h
    rw [translate_hit st t s i r h]
    exact ⟨rfl, cacheGet_cacheMarkCached_self st _ r h⟩

/-- Witness for C4 (amended): a first call on "A" with an empty cache
stores the pre-flag result under the derived key. -/
theorem cache_store_semantics_witness :
    cacheGet (translate_text_to_haptic [] "A" 1 0.8 true).2
        (derivedKey "A" 1 0.8) = some (respOf "A" 1 0.8) ∧
    (respOf "A" 1 0.8).cached = false :=
  (cache_store_semantics [] "A" 1 0.8).1 rfl

/-- Claim C9 counterexample: after "hello" populates the cache, the call
with "HELLO" (same derived key) returns the stored result whose text field
is "hello", not the current call's input "HELLO". -/
theorem hit_text_counterexample :
    ((translate_text_to_haptic
        (translate_text_to_haptic [] "hello" 1 0.8 true).2
        "HELLO" 1 0.8 true).1).text = "hello" ∧ "hello" ≠ "HELLO" := by
  refine ⟨?_, by decide⟩
  rw [translate_miss [] "hello" 1 0.8 rfl]
  have hk : derivedKey "HELLO" 1 0.8 = derivedKey "hello" 1 0.8 := by
    unfold derivedKey
    exact generate_cache_key_congr _ _ _ _ _ _ rfl rfl rfl
  have h1 : cacheGet (cachePut ([] : Cache) (derivedKey "hello" 1 0.8)
      (respOf "hello" 1 0.8)) (derivedKey "HELLO" 1 0.8)
      = some (respOf "hello" 1 0.8) := by
    rw [hk]
    exact cacheGet_cachePut_self [] _ _
  rw [translate_hit _ "HELLO" 1 0.8 _ h1]
  rfl

/-- Claim C9 (amended): the text field and characterCount of the returned
result echo the current call's input on cache-bypassing calls and on
misses; on a cache hit they are those of the stored entry (from the call
that created it), whose text may differ from the current input in letter
case. -/
theorem text_echo_semantics (st : Cache) (t : String) (s i : ℚ) :
    ((translate_text_to_haptic st t s i false).1.text = t ∧
     (translate_text_to_haptic st t s i false).1.characterCount
        = t.length) ∧
    (cacheGet st (derivedKey t s i) = none →
      (translate_text_to_haptic st t s i true).1.text = t ∧
      (translate_text_to_haptic st t s i true).1.characterCount
        = t.length) ∧
    (∀ r, cacheGet st (derivedKey t s i) = some r →
      (translate_text_to_haptic st t s i true).1.text = r.text ∧
      (translate_text_to_haptic st t s i true).1.characterCount
        = r.characterCount) := by
  refine ⟨?_, fun h => ?_, fun r h => ?_⟩
  · rw [translate_nocache]
    exact ⟨rfl, rfl⟩
  · rw [translate_miss st t s i h]
    exact ⟨rfl, rfl⟩
  · rw [translate_hit st t s i r h]
    exact ⟨rfl, rfl⟩

/-- Witness for C9 (amended): a miss on "Hi" echoes the input text and its
length. -/
theorem text_echo_semantics_witness :
    (translate_text_to_haptic [] "Hi" 1 0.8 true).1.text = "Hi" ∧
    (translate_text_to_haptic [] "Hi" 1 0.8 true).1.characterCount
      = ("Hi" : String).length :=
  (text_echo_semantics [] "Hi" 1 0.8).2.1 rfl

end Haptic
